import Mathlib

/-!
Formal model of `v2/pkg/reporting/issues/jira/jira.go` from the nuclei repository:
the Jira issue-tracker integration.  The file models the `Options` configuration,
the consumed fields of `output.ResultEvent`, the pure description formatter
`jiraFormatDescription`, and `CreateIssue`.  The two collaborators imported from
other packages (`format.GetMatchedTemplate`, `types.ToString`) and the go-jira
client call are taken as explicit parameters, so every theorem quantifies over them.
-/

namespace Jira

/-- Modelled from the spec: the extra-metadata mapping's values "may be of mixed
underlying type and must be rendered to text"; a tagged union of textual, numeric
and boolean payloads stands in for the dynamic value type. -/
inductive MetaValue where
  | str (s : String)
  | num (n : Int)
  | boolean (b : Bool)
  deriving DecidableEq

/-- Model of the broken-down wall-clock data of a Go `time.Time` that
`Format` consumes for the fixed reference layout at jira.go line 92:
calendar date, weekday (0 = Sunday), 24-hour clock, UTC offset in minutes
east of UTC, and the zone abbreviation. -/
structure GoTime where
  year : Nat
  month : Nat
  day : Nat
  weekday : Nat
  hour : Nat
  minute : Nat
  second : Nat
  offsetMinutes : Int
  zone : String
  deriving DecidableEq

/-- Modelled from the spec: the fields of `output.ResultEvent` consumed by this file —
"host, matched URL, protocol/type label, timestamp, request text, response text, a
mapping of informational key/value template metadata, an ordered sequence of
extracted-result strings, and a mapping of arbitrary extra metadata".  `Info` and
`Metadata` are Go maps; a value of this structure fixes one iteration order for each
as an association list, so two values with permuted lists denote the same Go event
observed under different map iteration orders.  The Go field `Type` is spelled
`Type'` here. -/
structure ResultEvent where
  Host : String
  Type' : String
  Matched : String
  Timestamp : GoTime
  Info : List (String × String)
  Request : String
  Response : String
  ExtractedResults : List String
  Metadata : List (String × MetaValue)
  deriving DecidableEq

/-- Configuration options for the jira client (jira.go lines 21-35). -/
structure Options where
  URL : String
  AccountID : String
  Email : String
  Token : String
  ProjectName : String
  IssueType : String
  deriving DecidableEq

/-- Abbreviated weekday name as produced by Go's layout token `Mon`. -/
def weekdayName : Nat → String
  | 0 => "Sun"
  | 1 => "Mon"
  | 2 => "Tue"
  | 3 => "Wed"
  | 4 => "Thu"
  | 5 => "Fri"
  | _ => "Sat"

/-- Abbreviated month name as produced by Go's layout token `Jan` (months count from 1). -/
def monthName : Nat → String
  | 1 => "Jan"
  | 2 => "Feb"
  | 3 => "Mar"
  | 4 => "Apr"
  | 5 => "May"
  | 6 => "Jun"
  | 7 => "Jul"
  | 8 => "Aug"
  | 9 => "Sep"
  | 10 => "Oct"
  | 11 => "Nov"
  | _ => "Dec"

/-- Two-digit zero-padded decimal, as produced by Go's layout tokens `15`, `04`, `05`. -/
def pad2 (n : Nat) : String := if n < 10 then "0" ++ toString n else toString n

/-- Four-digit zero-padded decimal, as produced by Go's layout token `2006`. -/
def pad4 (n : Nat) : String :=
  if n < 10 then "000" ++ toString n
  else if n < 100 then "00" ++ toString n
  else if n < 1000 then "0" ++ toString n
  else toString n

/-- Signed four-digit numeric UTC offset, as produced by Go's layout token `-0700`:
a sign (always printed) followed by zero-padded hours and minutes. -/
def offsetString (m : Int) : String :=
  (if m < 0 then "-" else "+") ++ pad2 (m.natAbs / 60) ++ pad2 (m.natAbs % 60)

/-- Model of Go stdlib `time.Time.Format` applied to the fixed reference layout
`Mon Jan 2 15:04:05 -0700 MST 2006` used at jira.go line 92: abbreviated weekday
name, abbreviated month name, unpadded day of month, zero-padded 24-hour clock,
signed four-digit numeric UTC offset, zone abbreviation, four-digit year. -/
def goReferenceFormat (t : GoTime) : String :=
  weekdayName t.weekday ++ " " ++ monthName t.month ++ " " ++ toString t.day ++ " " ++
    pad2 t.hour ++ ":" ++ pad2 t.minute ++ ":" ++ pad2 t.second ++ " " ++
    offsetString t.offsetMinutes ++ " " ++ t.zone ++ " " ++ pad4 t.year

/-- Model of Go `strings.ToUpper` as applied to the protocol label at jira.go
line 89: every character mapped to its upper-case form. -/
def stringsToUpper (s : String) : String := { data := s.data.map Char.toUpper }

/-- One Template Information table row (jira.go line 94): the Sprintf layout
is a bar, the key, a bar, the value, a closing bar and a newline. -/
def tableRow (kv : String × String) : String := "| " ++ kv.1 ++ " | " ++ kv.2 ++ " |\n"

/-- The loop over `event.Info` at jira.go lines 93-95: one row appended per entry,
in iteration order. -/
def tableRows : List (String × String) → String
  | [] => ""
  | kv :: rest => tableRow kv ++ tableRows rest

/-- One bulleted extracted-result line (jira.go lines 107-109). -/
def bulletLine (v : String) : String := "- " ++ v ++ "\n"

/-- The loop over `event.ExtractedResults` at jira.go lines 106-110: one bulleted
line per extracted string, in slice order. -/
def extractedLines : List String → String
  | [] => ""
  | v :: rest => bulletLine v ++ extractedLines rest

/-- One Metadata bullet (jira.go lines 116-120): dash, key, colon, stringified value,
newline.  The `types.ToString` collaborator is the parameter `toStr`. -/
def metadataLine (toStr : MetaValue → String) (kv : String × MetaValue) : String :=
  "- " ++ kv.1 ++ ": " ++ toStr kv.2 ++ "\n"

/-- The loop over `event.Metadata` at jira.go lines 115-121: one bullet per entry,
in iteration order. -/
def metadataLines (toStr : MetaValue → String) : List (String × MetaValue) → String
  | [] => ""
  | kv :: rest => metadataLine toStr kv ++ metadataLines toStr rest

/-- The conditional tail of the description (jira.go lines 103-125): when there is at
least one extracted result or metadata entry, an Extra Information section holding the
extracted-results list and/or the metadata list. -/
def extraInformation (toStr : MetaValue → String) (event : ResultEvent) : String :=
  if 0 < event.ExtractedResults.length ∨ 0 < event.Metadata.length then
    "*Extra Information*\n\n" ++
      (if 0 < event.ExtractedResults.length then
        "*Extracted results*:\n\n" ++ extractedLines event.ExtractedResults ++ "\n"
      else "") ++
      (if 0 < event.Metadata.length then
        "*Metadata*:\n\n" ++ metadataLines toStr event.Metadata ++ "\n"
      else "")
  else ""

/-- Model of `jiraFormatDescription` (jira.go lines 78-128): the buffer writes in
program order, concatenated.  The collaborator `format.GetMatchedTemplate` is the
parameter `getMatchedTemplate` and `types.ToString` is `toStr`. -/
def jiraFormatDescription (getMatchedTemplate : ResultEvent → String)
    (toStr : MetaValue → String) (event : ResultEvent) : String :=
  "*Details*: *" ++ getMatchedTemplate event ++ "* " ++ " matched at " ++ event.Host ++
    "\n\n*Protocol*: " ++ stringsToUpper event.Type' ++
    "\n\n*Full URL*: " ++ event.Matched ++
    "\n\n*Timestamp*: " ++ goReferenceFormat event.Timestamp ++
    "\n\n*Template Information*\n\n| Key | Value |\n" ++
    tableRows event.Info ++
    "\n*Request*\n\n{code}\n" ++ event.Request ++
    "\n{code}\n\n*Response*\n\n{code}\n" ++ event.Response ++
    "\n{code}\n\n" ++
    extraInformation toStr event

/-- Description text through the Timestamp label, exclusive of the rendered timestamp. -/
def beforeTimestamp (getMatchedTemplate : ResultEvent → String) (event : ResultEvent) :
    String :=
  "*Details*: *" ++ getMatchedTemplate event ++ "* " ++ " matched at " ++ event.Host ++
    "\n\n*Protocol*: " ++ stringsToUpper event.Type' ++
    "\n\n*Full URL*: " ++ event.Matched ++
    "\n\n*Timestamp*: "

/-- Description text from the Timestamp line through the end of the Template
Information header row. -/
def descriptionHead (getMatchedTemplate : ResultEvent → String) (event : ResultEvent) :
    String :=
  beforeTimestamp getMatchedTemplate event ++ goReferenceFormat event.Timestamp ++
    "\n\n*Template Information*\n\n| Key | Value |\n"

/-- The Request and Response fenced code blocks of the description. -/
def codeBlocks (event : ResultEvent) : String :=
  "\n*Request*\n\n{code}\n" ++ event.Request ++
    "\n{code}\n\n*Response*\n\n{code}\n" ++ event.Response ++ "\n{code}\n\n"

/-- Description text before the conditional Extra Information section. -/
def descriptionBase (getMatchedTemplate : ResultEvent → String) (event : ResultEvent) :
    String :=
  descriptionHead getMatchedTemplate event ++ tableRows event.Info ++ codeBlocks event

theorem jiraFormatDescription_decomposition (g : ResultEvent → String)
    (t : MetaValue → String) (e : ResultEvent) :
    jiraFormatDescription g t e = descriptionBase g e ++ extraInformation t e := by
  simp [jiraFormatDescription, descriptionBase, descriptionHead, beforeTimestamp,
    codeBlocks, String.append_assoc]

/-- Model of the go-jira `jira.User` field consumed here. -/
structure User where
  AccountID : String
  deriving DecidableEq

/-- Model of the go-jira `jira.IssueType` field consumed here. -/
structure IssueType where
  Name : String
  deriving DecidableEq

/-- Model of the go-jira `jira.Project` field consumed here. -/
structure Project where
  Key : String
  deriving DecidableEq

/-- Model of the go-jira `jira.IssueFields` fields populated at jira.go lines 55-62.
The Go field `Type` is spelled `Type'`. -/
structure IssueFields where
  Assignee : User
  Reporter : User
  Description : String
  Type' : IssueType
  Project : Project
  Summary : String
  deriving DecidableEq

/-- Model of the go-jira `jira.Issue` payload. -/
structure Issue where
  Fields : IssueFields
  deriving DecidableEq

/-- Model of the outcome of the go-jira call `i.jira.Issue.Create`: an optional
error message, and the response body text when a response with a readable body
is present (`resp != nil && resp.Body != nil`). -/
structure CreateResult where
  err : Option String
  body : Option String
  deriving DecidableEq

/-- Model of the `issueData` assembly at jira.go lines 54-63: assignee and reporter
both carry the configured AccountID, the description is the formatter's output, the
issue type name and project key come from the options, and the summary is the
`format.Summary` collaborator's output (parameter `summaryOf`). -/
def issuePayload (options : Options) (summaryOf getMatchedTemplate : ResultEvent → String)
    (toStr : MetaValue → String) (event : ResultEvent) : Issue :=
  { Fields :=
    { Assignee := { AccountID := options.AccountID }
      Reporter := { AccountID := options.AccountID }
      Description := jiraFormatDescription getMatchedTemplate toStr event
      Type' := { Name := options.IssueType }
      Project := { Key := options.ProjectName }
      Summary := summaryOf event } }

/-- Model of the error assembly on the failure path (jira.go line 71): Errorf of the
underlying error text, the literal separator, and the body text (empty when no
readable body was present). -/
def createErrorText (err : String) (body : Option String) : String :=
  err ++ " => " ++ (match body with | some d => d | none => "")

/-- Model of the tail of `CreateIssue` (jira.go lines 64-73): on a client error the
combined error is returned, otherwise success. -/
def createOutcome (r : CreateResult) : Except String Unit :=
  match r.err with
  | none => Except.ok ()
  | some e => Except.error (createErrorText e r.body)

/-- Model of `CreateIssue` (jira.go lines 50-74): builds the payload and performs the
client call, whose behaviour is the parameter `create`. -/
def CreateIssue (options : Options) (summaryOf getMatchedTemplate : ResultEvent → String)
    (toStr : MetaValue → String) (create : Issue → CreateResult)
    (event : ResultEvent) : Except String Unit :=
  createOutcome (create (issuePayload options summaryOf getMatchedTemplate toStr event))

/-- Substring containment on the character level: `needle` occurs contiguously in
`hay`. -/
def textContains (hay needle : String) : Prop := needle.data <:+: hay.data

instance (hay needle : String) : Decidable (textContains hay needle) :=
  inferInstanceAs (Decidable (needle.data <:+: hay.data))

/-- Modelled from the spec: two ResultEvent values denote the same Go event observed
under possibly different map iteration orders exactly when every scalar and slice
field agrees and the `Info` and `Metadata` association lists are permutations of one
another ("order across calls is not guaranteed stable"). -/
def SameGoEvent (a b : ResultEvent) : Prop :=
  a.Host = b.Host ∧ a.Type' = b.Type' ∧ a.Matched = b.Matched ∧
    a.Timestamp = b.Timestamp ∧ a.Info.Perm b.Info ∧ a.Request = b.Request ∧
    a.Response = b.Response ∧ a.ExtractedResults = b.ExtractedResults ∧
    a.Metadata.Perm b.Metadata

/-- Sample `format.GetMatchedTemplate` collaborator used in concrete witnesses. -/
def sampleTemplate : ResultEvent → String := fun _ => "tech-detect (misc)"

/-- Sample `format.Summary` collaborator used in concrete witnesses. -/
def sampleSummary : ResultEvent → String := fun e => "tech-detect matched at " ++ e.Host

/-- Sample `types.ToString` collaborator used in concrete witnesses. -/
def toStringModel : MetaValue → String
  | MetaValue.str s => s
  | MetaValue.num n => toString n
  | MetaValue.boolean b => toString b

/-- The reference instant itself: Monday, January 2, 15:04:05 MST (UTC-7) 2006. -/
def sampleTime : GoTime :=
  { year := 2006, month := 1, day := 2, weekday := 1, hour := 15, minute := 4,
    second := 5, offsetMinutes := -420, zone := "MST" }

/-- Sample event used in concrete witnesses. -/
def sampleEvent : ResultEvent :=
  { Host := "example.com", Type' := "http", Matched := "https://example.com/login",
    Timestamp := sampleTime, Info := [("severity", "info"), ("author", "pd")],
    Request := "GET /login HTTP/1.1", Response := "HTTP/1.1 200 OK",
    ExtractedResults := [], Metadata := [] }

theorem goReferenceFormat_sample :
    goReferenceFormat sampleTime = "Mon Jan 2 15:04:05 -0700 MST 2006" := by decide

theorem stringJoin_cons (s : String) (l : List String) :
    String.join (s :: l) = s ++ String.join l := by
  apply String.ext
  simp [String.join_eq, String.data_append]

theorem tableRows_eq_join (l : List (String × String)) :
    tableRows l = String.join (l.map tableRow) := by
  induction l with
  | nil => rfl
  | cons kv rest ih => simp [tableRows, stringJoin_cons, ih]

theorem extractedLines_eq_join (l : List String) :
    extractedLines l = String.join (l.map bulletLine) := by
  induction l with
  | nil => rfl
  | cons v rest ih => simp [extractedLines, stringJoin_cons, ih]

/-- C1: for every ResultEvent with a non-empty Info mapping, the description's
Template Information body consists of exactly one table row per Info entry — the
join of `tableRow` over the entries, `| key | value |` with a trailing newline —
in iteration order, sitting between the table header row and the Request block. -/
theorem claim_C1_info_table_rows (g : ResultEvent → String) (t : MetaValue → String)
    (e : ResultEvent) (hne : e.Info ≠ []) :
    jiraFormatDescription g t e =
      descriptionHead g e ++ tableRows e.Info ++ codeBlocks e ++ extraInformation t e ∧
    tableRows e.Info = String.join (e.Info.map tableRow) ∧
    (e.Info.map tableRow).length = e.Info.length ∧ 0 < e.Info.length := by
  refine ⟨?_, tableRows_eq_join _, by simp, List.length_pos.mpr hne⟩
  rw [jiraFormatDescription_decomposition]
  simp [descriptionBase, String.append_assoc]

theorem claim_C1_info_table_rows_witness :
    sampleEvent.Info ≠ [] ∧
    (jiraFormatDescription sampleTemplate toStringModel sampleEvent =
      descriptionHead sampleTemplate sampleEvent ++ tableRows sampleEvent.Info ++
        codeBlocks sampleEvent ++ extraInformation toStringModel sampleEvent ∧
    tableRows sampleEvent.Info = String.join (sampleEvent.Info.map tableRow) ∧
    (sampleEvent.Info.map tableRow).length = sampleEvent.Info.length ∧
    0 < sampleEvent.Info.length) :=
  ⟨by decide, claim_C1_info_table_rows sampleTemplate toStringModel sampleEvent (by decide)⟩

/-- Event whose raw request text itself contains the Extra Information marker. -/
def maliciousEvent : ResultEvent :=
  { sampleEvent with Request := "GET /x HTTP/1.1\n\n*Extra Information*\n\nHeader: 1" }

set_option maxRecDepth 16384 in
/-- C2 counterexample: an event with empty ExtractedResults and empty Metadata whose
description nevertheless contains the substring, because the raw request text embedded
verbatim in the Request block contains it. -/
theorem claim_C2_counterexample :
    maliciousEvent.ExtractedResults = [] ∧ maliciousEvent.Metadata = [] ∧
    textContains (jiraFormatDescription sampleTemplate toStringModel maliciousEvent)
      ("*Extra Information*") := by
  refine ⟨rfl, rfl, ?_⟩
  decide

/-- C2 amended: with empty ExtractedResults and empty Metadata the formatter appends
no Extra Information section — the conditional tail is the empty string and the
description is exactly the base text ending with the Response code fence (so the
marker substring is absent unless the event's own embedded text supplies it). -/
theorem claim_C2_no_extra_section (g : ResultEvent → String) (t : MetaValue → String)
    (e : ResultEvent) (h1 : e.ExtractedResults = []) (h2 : e.Metadata = []) :
    extraInformation t e = "" ∧
    jiraFormatDescription g t e = descriptionBase g e := by
  have hx : extraInformation t e = "" := by simp [extraInformation, h1, h2]
  refine ⟨hx, ?_⟩
  rw [jiraFormatDescription_decomposition, hx]
  exact String.append_empty _

theorem claim_C2_no_extra_section_witness :
    sampleEvent.ExtractedResults = [] ∧ sampleEvent.Metadata = [] ∧
    (extraInformation toStringModel sampleEvent = "" ∧
    jiraFormatDescription sampleTemplate toStringModel sampleEvent =
      descriptionBase sampleTemplate sampleEvent) :=
  ⟨rfl, rfl, claim_C2_no_extra_section sampleTemplate toStringModel sampleEvent rfl rfl⟩

/-- C3: for every ResultEvent with non-empty ExtractedResults, the description carries
the Extra Information section whose extracted-results part is exactly one bulleted
line (`- ` prefix, trailing newline) per extracted string, in slice order — the join
of `bulletLine` over the sequence. -/
theorem claim_C3_extracted_in_order (g : ResultEvent → String) (t : MetaValue → String)
    (e : ResultEvent) (hne : e.ExtractedResults ≠ []) :
    jiraFormatDescription g t e =
      descriptionBase g e ++ "*Extra Information*\n\n" ++
        ("*Extracted results*:\n\n" ++ extractedLines e.ExtractedResults ++ "\n") ++
        (if 0 < e.Metadata.length then
          "*Metadata*:\n\n" ++ metadataLines t e.Metadata ++ "\n"
        else "") ∧
    extractedLines e.ExtractedResults = String.join (e.ExtractedResults.map bulletLine) ∧
    (e.ExtractedResults.map bulletLine).length = e.ExtractedResults.length := by
  have hpos : 0 < e.ExtractedResults.length := List.length_pos.mpr hne
  refine ⟨?_, extractedLines_eq_join _, by simp⟩
  rw [jiraFormatDescription_decomposition]
  simp [extraInformation, hpos, String.append_assoc]

/-- Event with two extracted results, used as the C3 witness input. -/
def extractedEvent : ResultEvent :=
  { sampleEvent with ExtractedResults := ["admin@example.com", "dev@example.com"] }

theorem claim_C3_extracted_in_order_witness :
    extractedEvent.ExtractedResults ≠ [] ∧
    (jiraFormatDescription sampleTemplate toStringModel extractedEvent =
      descriptionBase sampleTemplate extractedEvent ++ "*Extra Information*\n\n" ++
        ("*Extracted results*:\n\n" ++ extractedLines extractedEvent.ExtractedResults ++
          "\n") ++
        (if 0 < extractedEvent.Metadata.length then
          "*Metadata*:\n\n" ++ metadataLines toStringModel extractedEvent.Metadata ++ "\n"
        else "") ∧
    extractedLines extractedEvent.ExtractedResults =
      String.join (extractedEvent.ExtractedResults.map bulletLine) ∧
    (extractedEvent.ExtractedResults.map bulletLine).length =
      extractedEvent.ExtractedResults.length) :=
  ⟨by decide,
    claim_C3_extracted_in_order sampleTemplate toStringModel extractedEvent (by decide)⟩

/-- C4: for every ResultEvent the description embeds the raw request and response
field values themselves — byte-for-byte, no escaping applied — between the literal
code-fence delimiters of the Request and Response blocks. -/
theorem claim_C4_verbatim_code_blocks (g : ResultEvent → String) (t : MetaValue → String)
    (e : ResultEvent) :
    jiraFormatDescription g t e =
      descriptionHead g e ++ tableRows e.Info ++
        ("\n*Request*\n\n{code}\n" ++ e.Request ++
          "\n{code}\n\n*Response*\n\n{code}\n" ++ e.Response ++ "\n{code}\n\n") ++
        extraInformation t e := by
  rw [jiraFormatDescription_decomposition]
  simp [descriptionBase, codeBlocks, String.append_assoc]

/-- Sample configuration used in concrete witnesses. -/
def sampleOptions : Options :=
  { URL := "https://example.atlassian.net/", AccountID := "5b10ac8d82e05b22cc7d4ef5",
    Email := "user@example.com", Token := "secret-token", ProjectName := "SEC",
    IssueType := "Bug" }

/-- Error text of the kind the go-jira client yields on a non-2xx response. -/
def apiErrorText : String :=
  "Request failed. Please analyze the request body for more details. Status code: 400"

/-- Response body of the simulated API failure. -/
def apiBody : String := "\x7b\"errorMessages\":[\"bad project\"]\x7d"

/-- Client behaviour that fails every create call with the simulated API failure. -/
def failingCreate : Issue → CreateResult :=
  fun _ => { err := some apiErrorText, body := some apiBody }

/-- C5: when the client call fails with an error and a readable response body,
CreateIssue returns the error built from the underlying error text, the literal
separator and the raw body text, and the body text occurs verbatim inside the
returned error text. -/
theorem claim_C5_error_contains_body (options : Options)
    (summaryOf getTpl : ResultEvent → String) (toStr : MetaValue → String)
    (create : Issue → CreateResult) (event : ResultEvent) (err body : String)
    (h : create (issuePayload options summaryOf getTpl toStr event) =
      { err := some err, body := some body }) :
    CreateIssue options summaryOf getTpl toStr create event =
      Except.error (err ++ " => " ++ body) ∧
    textContains (err ++ " => " ++ body) body := by
  constructor
  · simp [CreateIssue, h, createOutcome, createErrorText]
  · have hd : (err ++ " => " ++ body).data = (err ++ " => ").data ++ body.data :=
      String.data_append _ _
    rw [textContains, hd]
    exact (List.suffix_append _ _).isInfix

set_option maxRecDepth 16384 in
theorem claim_C5_error_contains_body_witness :
    failingCreate
        (issuePayload sampleOptions sampleSummary sampleTemplate toStringModel
          sampleEvent) =
      { err := some apiErrorText, body := some apiBody } ∧
    (CreateIssue sampleOptions sampleSummary sampleTemplate toStringModel failingCreate
        sampleEvent =
      Except.error (apiErrorText ++ " => " ++ apiBody) ∧
    textContains (apiErrorText ++ " => " ++ apiBody) apiBody) ∧
    textContains (apiErrorText ++ " => " ++ apiBody) ("bad project") :=
  ⟨rfl,
    claim_C5_error_contains_body sampleOptions sampleSummary sampleTemplate toStringModel
      failingCreate sampleEvent apiErrorText apiBody rfl,
    by decide⟩

/-- C6: the payload CreateIssue sends carries assignee and reporter both equal to the
configured AccountID, the configured issue type name and project key, the Summary
collaborator's output as summary and the description formatter's output as
description; and CreateIssue hands exactly this payload to the client call. -/
theorem claim_C6_payload_fields (options : Options)
    (summaryOf getTpl : ResultEvent → String) (toStr : MetaValue → String)
    (event : ResultEvent) :
    (issuePayload options summaryOf getTpl toStr event).Fields.Assignee.AccountID =
      options.AccountID ∧
    (issuePayload options summaryOf getTpl toStr event).Fields.Reporter.AccountID =
      options.AccountID ∧
    (issuePayload options summaryOf getTpl toStr event).Fields.Type'.Name =
      options.IssueType ∧
    (issuePayload options summaryOf getTpl toStr event).Fields.Project.Key =
      options.ProjectName ∧
    (issuePayload options summaryOf getTpl toStr event).Fields.Summary =
      summaryOf event ∧
    (issuePayload options summaryOf getTpl toStr event).Fields.Description =
      jiraFormatDescription getTpl toStr event ∧
    ∀ create : Issue → CreateResult,
      CreateIssue options summaryOf getTpl toStr create event =
        createOutcome (create (issuePayload options summaryOf getTpl toStr event)) :=
  ⟨rfl, rfl, rfl, rfl, rfl, rfl, fun _ => rfl⟩

/-- C7: the description's Timestamp line renders the event timestamp with the fixed
reference layout — abbreviated weekday name, abbreviated month name, unpadded day,
zero-padded 24-hour clock, signed four-digit numeric offset, zone abbreviation,
four-digit year — and the rendering is a function of the instant alone, so the same
instant always yields the same string. -/
theorem claim_C7_timestamp_reference_format (g : ResultEvent → String)
    (t : MetaValue → String) (e : ResultEvent) :
    jiraFormatDescription g t e =
      beforeTimestamp g e ++ goReferenceFormat e.Timestamp ++
        ("\n\n*Template Information*\n\n| Key | Value |\n" ++ tableRows e.Info ++
          codeBlocks e ++ extraInformation t e) ∧
    goReferenceFormat e.Timestamp =
      weekdayName e.Timestamp.weekday ++ " " ++ monthName e.Timestamp.month ++ " " ++
        toString e.Timestamp.day ++ " " ++ pad2 e.Timestamp.hour ++ ":" ++
        pad2 e.Timestamp.minute ++ ":" ++ pad2 e.Timestamp.second ++ " " ++
        offsetString e.Timestamp.offsetMinutes ++ " " ++ e.Timestamp.zone ++ " " ++
        pad4 e.Timestamp.year ∧
    ∀ t1 t2 : GoTime, t1 = t2 → goReferenceFormat t1 = goReferenceFormat t2 := by
  refine ⟨?_, rfl, fun t1 t2 h => by rw [h]⟩
  rw [jiraFormatDescription_decomposition]
  simp [descriptionBase, descriptionHead, String.append_assoc]

theorem claim_C7_timestamp_reference_format_witness :
    jiraFormatDescription sampleTemplate toStringModel sampleEvent =
      beforeTimestamp sampleTemplate sampleEvent ++
        goReferenceFormat sampleEvent.Timestamp ++
        ("\n\n*Template Information*\n\n| Key | Value |\n" ++
          tableRows sampleEvent.Info ++ codeBlocks sampleEvent ++
          extraInformation toStringModel sampleEvent) ∧
    goReferenceFormat sampleEvent.Timestamp =
      weekdayName sampleEvent.Timestamp.weekday ++ " " ++
        monthName sampleEvent.Timestamp.month ++ " " ++
        toString sampleEvent.Timestamp.day ++ " " ++
        pad2 sampleEvent.Timestamp.hour ++ ":" ++
        pad2 sampleEvent.Timestamp.minute ++ ":" ++
        pad2 sampleEvent.Timestamp.second ++ " " ++
        offsetString sampleEvent.Timestamp.offsetMinutes ++ " " ++
        sampleEvent.Timestamp.zone ++ " " ++ pad4 sampleEvent.Timestamp.year ∧
    ∀ t1 t2 : GoTime, t1 = t2 → goReferenceFormat t1 = goReferenceFormat t2 :=
  claim_C7_timestamp_reference_format sampleTemplate toStringModel sampleEvent

/-- C8: the description's sections appear in the specified order — Details header with
template name and host, Protocol line, Full URL line, Timestamp line, Template
Information table, Request block, Response block — and the Protocol line carries the
event's type label with every character upper-cased. -/
theorem claim_C8_section_order (g : ResultEvent → String) (t : MetaValue → String)
    (e : ResultEvent) :
    jiraFormatDescription g t e =
      ("*Details*: *" ++ g e ++ "* " ++ " matched at " ++ e.Host) ++
        ("\n\n*Protocol*: " ++ stringsToUpper e.Type') ++
        ("\n\n*Full URL*: " ++ e.Matched) ++
        ("\n\n*Timestamp*: " ++ goReferenceFormat e.Timestamp) ++
        ("\n\n*Template Information*\n\n| Key | Value |\n" ++ tableRows e.Info) ++
        ("\n*Request*\n\n{code}\n" ++ e.Request ++ "\n{code}\n\n") ++
        ("*Response*\n\n{code}\n" ++ e.Response ++ "\n{code}\n\n") ++
        extraInformation t e ∧
    stringsToUpper e.Type' = { data := e.Type'.data.map Char.toUpper } := by
  refine ⟨?_, rfl⟩
  have hsplit : ("\n{code}\n\n*Response*\n\n{code}\n" : String) =
      "\n{code}\n\n" ++ "*Response*\n\n{code}\n" := rfl
  simp only [jiraFormatDescription]
  rw [hsplit]
  simp only [String.append_assoc]

/-- The sample event's Info mapping observed under the other iteration order. -/
def eventOrderB : ResultEvent :=
  { sampleEvent with Info := [("author", "pd"), ("severity", "info")] }

set_option maxRecDepth 16384 in
/-- C9 counterexample: two ResultEvent values denoting the same Go event — every
scalar and slice field equal, Info lists permutations of one another — yield
different description strings, so two runs of the formatter over the same map-valued
event are not guaranteed to agree. -/
theorem claim_C9_counterexample :
    SameGoEvent sampleEvent eventOrderB ∧
    jiraFormatDescription sampleTemplate toStringModel sampleEvent ≠
      jiraFormatDescription sampleTemplate toStringModel eventOrderB := by
  constructor
  · exact ⟨rfl, rfl, rfl, rfl, by decide, rfl, rfl, rfl, by decide⟩
  · decide

/-- C9 amended: the formatter is deterministic in the event together with the
observed iteration orders of its two mappings: whenever the template collaborator
agrees and every field, including the Info and Metadata iteration orders, agrees,
the outputs are identical.  Across runs, stability is only guaranteed up to the
mappings' iteration order. -/
theorem claim_C9_deterministic_given_order (g : ResultEvent → String)
    (t : MetaValue → String) (e1 e2 : ResultEvent) (hg : g e1 = g e2)
    (hs : SameGoEvent e1 e2) (hInfo : e1.Info = e2.Info)
    (hMeta : e1.Metadata = e2.Metadata) :
    jiraFormatDescription g t e1 = jiraFormatDescription g t e2 := by
  obtain ⟨hHost, hType, hMatched, hTs, _, hReq, hResp, hEx, _⟩ := hs
  simp only [jiraFormatDescription, extraInformation, hg, hHost, hType, hMatched, hTs,
    hInfo, hReq, hResp, hEx, hMeta]

theorem claim_C9_deterministic_given_order_witness :
    sampleTemplate sampleEvent = sampleTemplate sampleEvent ∧
    SameGoEvent sampleEvent sampleEvent ∧
    sampleEvent.Info = sampleEvent.Info ∧
    sampleEvent.Metadata = sampleEvent.Metadata ∧
    jiraFormatDescription sampleTemplate toStringModel sampleEvent =
      jiraFormatDescription sampleTemplate toStringModel sampleEvent :=
  ⟨rfl, ⟨rfl, rfl, rfl, rfl, List.Perm.refl _, rfl, rfl, rfl, List.Perm.refl _⟩, rfl, rfl,
    claim_C9_deterministic_given_order sampleTemplate toStringModel sampleEvent
      sampleEvent rfl
      ⟨rfl, rfl, rfl, rfl, List.Perm.refl _, rfl, rfl, rfl, List.Perm.refl _⟩ rfl rfl⟩

/-- C10: every description — also when the Info mapping is empty — contains the
Template Information heading followed by the header row `| Key | Value |`; with
empty Info the table body is the empty string, so the section is a header-only
table rather than being omitted. -/
theorem claim_C10_table_header_always (g : ResultEvent → String)
    (t : MetaValue → String) (e : ResultEvent) :
    jiraFormatDescription g t e =
      beforeTimestamp g e ++ goReferenceFormat e.Timestamp ++
        "\n\n*Template Information*\n\n| Key | Value |\n" ++ tableRows e.Info ++
        codeBlocks e ++ extraInformation t e ∧
    (e.Info = [] → tableRows e.Info = "") := by
  refine ⟨?_, fun h => by rw [h]; rfl⟩
  rw [jiraFormatDescription_decomposition]
  simp [descriptionBase, descriptionHead, String.append_assoc]

/-- The sample event with an empty Info mapping. -/
def emptyInfoEvent : ResultEvent := { sampleEvent with Info := [] }

theorem claim_C10_table_header_always_witness :
    (jiraFormatDescription sampleTemplate toStringModel emptyInfoEvent =
      beforeTimestamp sampleTemplate emptyInfoEvent ++
        goReferenceFormat emptyInfoEvent.Timestamp ++
        "\n\n*Template Information*\n\n| Key | Value |\n" ++
        tableRows emptyInfoEvent.Info ++ codeBlocks emptyInfoEvent ++
        extraInformation toStringModel emptyInfoEvent ∧
    (emptyInfoEvent.Info = [] → tableRows emptyInfoEvent.Info = "")) ∧
    tableRows emptyInfoEvent.Info = "" :=
  ⟨claim_C10_table_header_always sampleTemplate toStringModel emptyInfoEvent, rfl⟩

end Jira
